import Mathlib

/-!
# Verification of the timerfd GSource crate

Shallow embedding of `src/lib.rs`, a Rust crate integrating Linux timerfd
into the GLib main loop: the `timespec` / `itimerspec` time structures, the
`TimerFD` syscall wrapper, the `Timer` state machine, and the GSource
dispatch function `dispatch_timerfd_g_source_for_realz`.

Modelling conventions:
- `libc::time_t` and `libc::c_long` (both `i64` on the target) are modelled
  as `Int`; every arithmetic operation performed by the crate on them
  (division and remainder by 1000, multiplication by 1000*1000 of a value
  whose magnitude is below 1000) stays far below 2^63, so no wrap-around
  can occur and the unbounded model is exact.  Rust's `/` and `%` on `i64`
  truncate toward zero, so they are embedded as `Int.tdiv` / `Int.tmod`.
- A Rust `panic!` / failed `assert!` is modelled as an `Except.error`
  carrying the panic kind together with the `Timer` value as the caller
  still observes it through `&mut self` (panics in the crate happen before
  any mutation of the receiver).
- The kernel timer resource behind a `TimerFD` is modelled by the
  `itimerspec` currently installed in it; `timerfd_settime` installs the
  new spec and reports the previously installed one, `timerfd_create`
  yields a disarmed (all-zero) timer.  Kernel-level syscall failures
  (which the crate turns into panics) are modelled separately, at the
  out-buffer level, by `TimerFD.gettime_raw` / `TimerFD.settime_raw`.
-/

/-- Linux `EAGAIN` errno, the value of `libc::EAGAIN` used by the dispatch
function's drain check. -/
def EAGAIN : Int := 11

/-- `struct timespec { tv_sec: time_t, tv_nsec: c_long }` from the source. -/
structure timespec where
  tv_sec : Int
  tv_nsec : Int
deriving DecidableEq, Repr

/-- `Default::default()` for `timespec`: both fields zero. -/
def timespec.zero : timespec := ⟨0, 0⟩

/-- `timespec::is_valid`: `0 <= self.tv_nsec && self.tv_nsec <= 999_999_999`
(the range `man timerfd_settime` documents). -/
def timespec.is_valid (t : timespec) : Bool :=
  0 ≤ t.tv_nsec && t.tv_nsec ≤ 999999999

/-- The panic kinds of the crate, one per `panic!` / failed `assert!` site. -/
inductive CratePanic where
  /-- `timespec::check_valid`: `panic!("timespec is not in valid range")`. -/
  | invalidTimespec
  /-- `Timer::set_interval`: `assert!(initial_ms > 0)` failed. -/
  | assertInitialMsPositive
  /-- `Timer::set_interval`: `panic!("don't change time of an active timer")`. -/
  | reconfigureWhileArmed
  /-- `Timer::start`: `panic!("calling start on an active timer")`. -/
  | alreadyArmed
  /-- `Timer::stop`: `panic!("calling stop on an non-active timer")`. -/
  | notArmed
  /-- `TimerFD::settime`: `panic!("Failed to set time of timerfd")`. -/
  | settimeFailed
  /-- `TimerFD::gettime`: `panic!("Failed to get time from timerfd")`. -/
  | gettimeFailed
deriving DecidableEq, Repr

/-- Rust's `Ord::cmp` on `i64`: `Less` / `Equal` / `Greater` by the standard
order on the integers. -/
def i64cmp (a b : Int) : Ordering :=
  if a < b then .lt else if a = b then .eq else .gt

/-- The comparison body shared by the `PartialOrd` and `Ord` impls of
`timespec`: compare `tv_sec`, and on equality compare `tv_nsec`. -/
def timespec.cmp_body (a b : timespec) : Ordering :=
  match i64cmp a.tv_sec b.tv_sec with
  | .eq => i64cmp a.tv_nsec b.tv_nsec
  | ord => ord

/-- `Ord::cmp` for `timespec` from the source: `self.check_valid()` and
`other.check_valid()` (panicking on an out-of-range `tv_nsec`, in that
order), then the lexicographic comparison. -/
def timespec.cmp (a b : timespec) : Except CratePanic Ordering :=
  if a.is_valid = false then .error .invalidTimespec
  else if b.is_valid = false then .error .invalidTimespec
  else .ok (a.cmp_body b)

/-- `struct itimerspec { it_interval: timespec, it_value: timespec }` from the
source (field order as in the C struct: the recurring interval first, the
next-expiration value second). -/
structure itimerspec where
  it_interval : timespec
  it_value : timespec
deriving DecidableEq, Repr

/-- `Default::default()` for `itimerspec`: the all-zero, disarmed spec. -/
def itimerspec.zero : itimerspec := ⟨timespec.zero, timespec.zero⟩

/-- The kernel timer resource owned by a `TimerFD`, abstracted by the
`itimerspec` currently installed in it.  `timerfd_create` yields a disarmed
timer, `timerfd_settime` replaces the installed spec and reports the
previous one. -/
structure TimerFD where
  installed : itimerspec
deriving DecidableEq, Repr

/-- `TimerFD::new`: `timerfd_create(CLOCK_MONOTONIC, TFD_CLOEXEC | TFD_NONBLOCK)`;
a freshly created timerfd is disarmed. -/
def TimerFD.new : TimerFD := ⟨itimerspec.zero⟩

/-- `TimerFD::settime` at the kernel-state level: installs `new_value` and
returns the previously installed spec (the `old_value` out-parameter of
`timerfd_settime`). -/
def TimerFD.settime (fd : TimerFD) (new_value : itimerspec) : itimerspec × TimerFD :=
  (fd.installed, ⟨new_value⟩)

/-- The contents of the `itimerspec` out-buffer passed to a syscall:
either still uninitialized, or filled with a definite value. -/
inductive BufContents where
  | uninit
  | filled (v : itimerspec)
deriving DecidableEq, Repr

/-- `TimerFD::gettime` with its out-parameter made explicit.  The source is

```
let mut result = mem::uninitialized();
let ret = timerfd_gettime(self.fd, &mut result);
if ret != 0 \x7b panic!("Failed to get time from timerfd: ...") \x7d
result
```

so the buffer handed to the kernel is `BufContents.uninit`; the kernel call
is abstracted by a function from the buffer it receives to its return code
and the buffer it leaves behind.  A nonzero return code panics. -/
def TimerFD.gettime_raw (kernel : BufContents → Int × BufContents) :
    Except CratePanic BufContents :=
  let result := BufContents.uninit
  match kernel result with
  | (ret, result2) => if ret ≠ 0 then .error .gettimeFailed else .ok result2

/-- `TimerFD::settime` with its out-parameter made explicit, exactly parallel
to `TimerFD.gettime_raw`: `let mut result = mem::uninitialized();` then
`timerfd_settime(self.fd, 0, new_value, &mut result)`, panicking on a
nonzero return code. -/
def TimerFD.settime_raw (new_value : itimerspec)
    (kernel : itimerspec → BufContents → Int × BufContents) :
    Except CratePanic BufContents :=
  let result := BufContents.uninit
  match kernel new_value result with
  | (ret, result2) => if ret ≠ 0 then .error .settimeFailed else .ok result2

/-- `struct Timer { timerfd: TimerFD, current: itimerspec, active: bool }`. -/
structure Timer where
  timerfd : TimerFD
  current : itimerspec
  active : Bool
deriving DecidableEq, Repr

/-- `Timer::new`: fresh `TimerFD`, default (all-zero) `current`, inactive. -/
def Timer.new : Timer :=
  { timerfd := TimerFD.new, current := itimerspec.zero, active := false }

/-- `Timer::set_interval(initial_ms, interval_ms)` from the source:
`assert!(initial_ms > 0)` first, then the active-timer panic, then the
four field assignments (Rust `/` and `%` on `i64` are `Int.tdiv` /
`Int.tmod`).  A panic leaves the timer unchanged (both panics precede any
mutation). -/
def Timer.set_interval (t : Timer) (initial_ms interval_ms : Int) :
    Except (CratePanic × Timer) Timer :=
  if ¬ initial_ms > 0 then .error (.assertInitialMsPositive, t)
  else if t.active then .error (.reconfigureWhileArmed, t)
  else .ok { t with current :=
    { it_value := ⟨initial_ms.tdiv 1000, initial_ms.tmod 1000 * 1000 * 1000⟩
      it_interval := ⟨interval_ms.tdiv 1000, interval_ms.tmod 1000 * 1000 * 1000⟩ } }

/-- `Timer::set_oneshot(timeout_ms)`: `self.set_interval(timeout_ms, 0)`. -/
def Timer.set_oneshot (t : Timer) (timeout_ms : Int) :
    Except (CratePanic × Timer) Timer :=
  t.set_interval timeout_ms 0

/-- `Timer::start`: panics if already active (before touching the handle),
otherwise installs `current` into the timerfd and sets `active`. -/
def Timer.start (t : Timer) : Except (CratePanic × Timer) Timer :=
  if t.active then .error (.alreadyArmed, t)
  else
    let (_prev, fd2) := t.timerfd.settime t.current
    .ok { t with timerfd := fd2, active := true }

/-- `Timer::stop`: panics if not active, otherwise installs the default
(all-zero, disarming) spec, stores the spec the handle returned into
`current`, and clears `active`. -/
def Timer.stop (t : Timer) : Except (CratePanic × Timer) Timer :=
  if ¬ t.active then .error (.notArmed, t)
  else
    let (prev, fd2) := t.timerfd.settime itimerspec.zero
    .ok { t with timerfd := fd2, current := prev, active := false }

/-- The states a `Timer` can reach through the public interface:
`Timer::new`, then any succession of successful (non-panicking)
`set_interval`, `set_oneshot`, `start`, `stop` calls. -/
inductive Reachable : Timer → Prop where
  | new : Reachable Timer.new
  | set_interval {t t' : Timer} {i j : Int} :
      Reachable t → t.set_interval i j = .ok t' → Reachable t'
  | set_oneshot {t t' : Timer} {ms : Int} :
      Reachable t → t.set_oneshot ms = .ok t' → Reachable t'
  | start {t t' : Timer} :
      Reachable t → t.start = .ok t' → Reachable t'
  | stop {t t' : Timer} :
      Reachable t → t.stop = .ok t' → Reachable t'

/-- The states reachable when `start` is only ever invoked while the
configured `current` spec is non-disarmed (its `it_value` is not all-zero),
i.e. only after a successful `set_interval` / `set_oneshot`.  This is
`Reachable` with that one guard added to the `start` step. -/
inductive ReachableConfigured : Timer → Prop where
  | new : ReachableConfigured Timer.new
  | set_interval {t t' : Timer} {i j : Int} :
      ReachableConfigured t → t.set_interval i j = .ok t' → ReachableConfigured t'
  | set_oneshot {t t' : Timer} {ms : Int} :
      ReachableConfigured t → t.set_oneshot ms = .ok t' → ReachableConfigured t'
  | start {t t' : Timer} :
      ReachableConfigured t → t.current.it_value ≠ timespec.zero →
      t.start = .ok t' → ReachableConfigured t'
  | stop {t t' : Timer} :
      ReachableConfigured t → t.stop = .ok t' → ReachableConfigured t'

/-! ## The GSource dispatch function

`dispatch_timerfd_g_source_for_realz` is the entry point the GLib reactor
calls when the timerfd is readable.  The state it acts on couples the
`Timer` (handed to the callback by `&mut` reference) with the readable side
of the same descriptor: the count of kernel expirations not yet read, plus
an optional injected read failure standing for any kernel-level read error
other than the descriptor's normal behaviour. -/

/-- The readable side of the timerfd during dispatch. -/
structure FDReadState where
  /-- Kernel expirations that have not been read (drained) yet. -/
  expirations : Nat
  /-- An injected failure: `some e` makes the next `read` fail with errno
  `e`, modelling any kernel read error; `none` is the normal descriptor. -/
  readFault : Option Int
deriving DecidableEq, Repr

/-- The state the dispatch function acts on: the `Timer` and the readable
side of its descriptor.  The callback receives all of it mutably (through
the `&mut Timer` it can reconfigure the timer and read the descriptor). -/
structure DispatchState where
  timer : Timer
  fd : FDReadState
deriving DecidableEq, Repr

/-- `libc::read(fd, buffer, 8)` on the non-blocking timerfd, returning
`(n, errno, fd')`: with a fault injected, `-1` and the fault's errno; with
pending expirations, 8 bytes and a cleared counter; otherwise `-1` with
`EAGAIN` (the descriptor is `TFD_NONBLOCK`). -/
def FDReadState.read8 (fd : FDReadState) : Int × Int × FDReadState :=
  match fd.readFault with
  | some e => (-1, e, fd)
  | none =>
    if fd.expirations > 0 then (8, 0, { fd with expirations := 0 })
    else (-1, EAGAIN, fd)

/-- The observable steps the dispatch function performs, in order. -/
inductive DispatchEvent where
  /-- The user callback ran and returned this continue decision. -/
  | callbackInvoked (cont : Bool)
  /-- `libc::read` of 8 bytes was attempted, returning `n` with this errno. -/
  | readAttempted (n : Int) (errno : Int)
deriving DecidableEq, Repr

/-- How the dispatch function ends. -/
inductive DispatchOutcome where
  /-- Normal return of the `gboolean` (1 = keep the source, 0 = remove). -/
  | ret (gboolean : Int)
  /-- `assert_eq!(err.raw_os_error().unwrap(), libc::EAGAIN)` failed after a
  short read: the drain-protocol violation is surfaced as a panic. -/
  | drainProtocolViolation (errno : Int)
deriving DecidableEq, Repr

/-- `dispatch_timerfd_g_source_for_realz` from the source: run the user
callback on the timer, then read 8 bytes from the descriptor; if the read
did not return 8 bytes, assert that the errno is `EAGAIN` (panicking
otherwise); finally return the callback's boolean as the `gboolean`.  The
result records the ordered event trace, the outcome, and the final state. -/
def dispatch_timerfd_g_source_for_realz
    (callback : DispatchState → Bool × DispatchState) (s : DispatchState) :
    List DispatchEvent × DispatchOutcome × DispatchState :=
  let (cont, s1) := callback s
  let (n, errno, fd2) := s1.fd.read8
  let events := [DispatchEvent.callbackInvoked cont, DispatchEvent.readAttempted n errno]
  if n ≠ 8 then
    if errno = EAGAIN then
      (events, .ret (if cont then 1 else 0), { s1 with fd := fd2 })
    else
      (events, .drainProtocolViolation errno, { s1 with fd := fd2 })
  else
    (events, .ret (if cont then 1 else 0), { s1 with fd := fd2 })

/-! ## Helper lemmas on the comparison -/

theorem i64cmp_eq_lt {a b : Int} : i64cmp a b = .lt ↔ a < b := by
  unfold i64cmp
  split
  · simp [*]
  · split <;> simp_all <;> omega

theorem i64cmp_eq_eq {a b : Int} : i64cmp a b = .eq ↔ a = b := by
  unfold i64cmp
  split
  · simp_all; omega
  · split <;> simp_all

theorem i64cmp_eq_gt {a b : Int} : i64cmp a b = .gt ↔ b < a := by
  unfold i64cmp
  split
  · simp_all; omega
  · split <;> simp_all <;> omega

theorem timespec_eq_iff {a b : timespec} :
    a = b ↔ a.tv_sec = b.tv_sec ∧ a.tv_nsec = b.tv_nsec := by
  cases a; cases b; simp

theorem cmp_body_eq_lt {a b : timespec} :
    a.cmp_body b = .lt ↔
      a.tv_sec < b.tv_sec ∨ (a.tv_sec = b.tv_sec ∧ a.tv_nsec < b.tv_nsec) := by
  unfold timespec.cmp_body
  rcases h : i64cmp a.tv_sec b.tv_sec with _ | _ | _ <;>
    simp_all [i64cmp_eq_lt, i64cmp_eq_eq, i64cmp_eq_gt] <;> omega

theorem cmp_body_eq_eq {a b : timespec} : a.cmp_body b = .eq ↔ a = b := by
  unfold timespec.cmp_body
  rcases h : i64cmp a.tv_sec b.tv_sec with _ | _ | _ <;>
    simp_all [i64cmp_eq_lt, i64cmp_eq_eq, i64cmp_eq_gt, timespec_eq_iff] <;> omega

theorem cmp_body_eq_gt {a b : timespec} :
    a.cmp_body b = .gt ↔
      b.tv_sec < a.tv_sec ∨ (a.tv_sec = b.tv_sec ∧ b.tv_nsec < a.tv_nsec) := by
  unfold timespec.cmp_body
  rcases h : i64cmp a.tv_sec b.tv_sec with _ | _ | _ <;>
    simp_all [i64cmp_eq_lt, i64cmp_eq_eq, i64cmp_eq_gt] <;> omega

theorem timespec_cmp_valid {a b : timespec}
    (ha : a.is_valid = true) (hb : b.is_valid = true) :
    a.cmp b = .ok (a.cmp_body b) := by
  unfold timespec.cmp
  simp [ha, hb]

/-! ## Claim theorems -/

/-- C7: for all `timespec` operands with `tv_nsec` in `[0, 999_999_999]`,
the seconds-then-nanoseconds comparison is a strict total order:
antisymmetric, transitive, consistent with component-wise equality, and
total. -/
theorem timespec_cmp_strict_total_order (a b c : timespec)
    (ha : a.is_valid = true) (hb : b.is_valid = true) (hc : c.is_valid = true) :
    (a.cmp b = .ok .lt ↔ b.cmp a = .ok .gt) ∧
    (a.cmp b = .ok .lt → b.cmp c = .ok .lt → a.cmp c = .ok .lt) ∧
    (a.cmp b = .ok .eq ↔ a = b) ∧
    (a.cmp b = .ok .lt ∨ a.cmp b = .ok .eq ∨ a.cmp b = .ok .gt) := by
  rw [timespec_cmp_valid ha hb, timespec_cmp_valid hb ha, timespec_cmp_valid hb hc,
    timespec_cmp_valid ha hc]
  simp only [Except.ok.injEq]
  refine ⟨?_, ?_, ?_, ?_⟩
  · rw [cmp_body_eq_lt, cmp_body_eq_gt]
    constructor <;> (intro h; rcases h with h | h; exacts [Or.inl h, Or.inr ⟨h.1.symm, h.2⟩])
  · rw [cmp_body_eq_lt, cmp_body_eq_lt, cmp_body_eq_lt]
    intro h1 h2
    rcases h1 with h1 | h1 <;> rcases h2 with h2 | h2
    · exact Or.inl (lt_trans h1 h2)
    · exact Or.inl (by omega)
    · exact Or.inl (by omega)
    · exact Or.inr ⟨by omega, by omega⟩
  · exact cmp_body_eq_eq
  · rcases h : a.cmp_body b with _ | _ | _ <;> simp

/-- Witness for C7 at concrete valid operands. -/
theorem timespec_cmp_strict_total_order_witness :
    (timespec.mk 1 2).is_valid = true ∧ (timespec.mk 1 3).is_valid = true ∧
    (timespec.mk 2 0).is_valid = true ∧
    (((timespec.mk 1 2).cmp ⟨1, 3⟩ = .ok .lt ↔ (timespec.mk 1 3).cmp ⟨1, 2⟩ = .ok .gt) ∧
     ((timespec.mk 1 2).cmp ⟨1, 3⟩ = .ok .lt → (timespec.mk 1 3).cmp ⟨2, 0⟩ = .ok .lt →
        (timespec.mk 1 2).cmp ⟨2, 0⟩ = .ok .lt) ∧
     ((timespec.mk 1 2).cmp ⟨1, 3⟩ = .ok .eq ↔ (timespec.mk 1 2) = ⟨1, 3⟩) ∧
     ((timespec.mk 1 2).cmp ⟨1, 3⟩ = .ok .lt ∨ (timespec.mk 1 2).cmp ⟨1, 3⟩ = .ok .eq ∨
        (timespec.mk 1 2).cmp ⟨1, 3⟩ = .ok .gt)) :=
  ⟨by decide, by decide, by decide,
    timespec_cmp_strict_total_order ⟨1, 2⟩ ⟨1, 3⟩ ⟨2, 0⟩ (by decide) (by decide) (by decide)⟩

/-- C8: if at least one operand has `tv_nsec` outside `[0, 999_999_999]`,
the comparison panics (`check_valid`) instead of returning an ordering. -/
theorem timespec_cmp_invalid (a b : timespec)
    (h : a.is_valid = false ∨ b.is_valid = false) :
    a.cmp b = .error .invalidTimespec := by
  unfold timespec.cmp
  rcases h with h | h
  · simp [h]
  · by_cases ha : a.is_valid = false <;> simp [h, ha]

/-- Witness for C8: comparing a `timespec` with a negative `tv_nsec`. -/
theorem timespec_cmp_invalid_witness :
    ((timespec.mk 0 (-1)).is_valid = false ∨ timespec.zero.is_valid = false) ∧
    (timespec.mk 0 (-1)).cmp timespec.zero = .error .invalidTimespec :=
  ⟨Or.inl (by decide), timespec_cmp_invalid ⟨0, -1⟩ timespec.zero (Or.inl (by decide))⟩

/-- C2: on an armed timer, `stop` installs the all-zero disarming spec into
the handle, stores the spec the handle returned (its previously installed
spec) as the new `current`, and clears `active`; on an idle timer it
panics with the not-armed message. -/
theorem stop_state_machine (t : Timer) :
    (t.active = true →
      t.stop = .ok { timerfd := ⟨itimerspec.zero⟩,
                     current := t.timerfd.installed, active := false }) ∧
    (t.active = false → t.stop = .error (.notArmed, t)) := by
  constructor <;> intro h <;> simp [Timer.stop, TimerFD.settime, h]

/-- Witness for C2: an armed timer with a non-trivial installed spec, and
the idle freshly-created timer. -/
theorem stop_state_machine_witness :
    ((⟨⟨⟨⟨0, 0⟩, ⟨1, 500000000⟩⟩⟩, itimerspec.zero, true⟩ : Timer).active = true ∧
      (⟨⟨⟨⟨0, 0⟩, ⟨1, 500000000⟩⟩⟩, itimerspec.zero, true⟩ : Timer).stop
        = .ok { timerfd := ⟨itimerspec.zero⟩,
                current := ⟨⟨0, 0⟩, ⟨1, 500000000⟩⟩, active := false }) ∧
    (Timer.new.active = false ∧ Timer.new.stop = .error (.notArmed, Timer.new)) :=
  ⟨⟨rfl, (stop_state_machine ⟨⟨⟨⟨0, 0⟩, ⟨1, 500000000⟩⟩⟩, itimerspec.zero, true⟩).1 rfl⟩,
   ⟨rfl, (stop_state_machine Timer.new).2 rfl⟩⟩

/-- C4: on an armed timer, `start` panics with the already-armed message
before touching the handle (the error carries the timer unchanged, its
handle still holding whatever was installed before); on an idle timer it
installs `current` into the handle and sets `active`. -/
theorem start_state_machine (t : Timer) :
    (t.active = true → t.start = .error (.alreadyArmed, t)) ∧
    (t.active = false →
      t.start = .ok { t with timerfd := ⟨t.current⟩, active := true }) := by
  constructor <;> intro h <;> simp [Timer.start, TimerFD.settime, h]

/-- Witness for C4: an armed timer, and an idle timer with a configured
`current` spec. -/
theorem start_state_machine_witness :
    ((⟨⟨itimerspec.zero⟩, itimerspec.zero, true⟩ : Timer).active = true ∧
      (⟨⟨itimerspec.zero⟩, itimerspec.zero, true⟩ : Timer).start
        = .error (.alreadyArmed, ⟨⟨itimerspec.zero⟩, itimerspec.zero, true⟩)) ∧
    ((⟨⟨itimerspec.zero⟩, ⟨⟨0, 0⟩, ⟨2, 0⟩⟩, false⟩ : Timer).active = false ∧
      (⟨⟨itimerspec.zero⟩, ⟨⟨0, 0⟩, ⟨2, 0⟩⟩, false⟩ : Timer).start
        = .ok { timerfd := ⟨⟨⟨0, 0⟩, ⟨2, 0⟩⟩⟩, current := ⟨⟨0, 0⟩, ⟨2, 0⟩⟩,
                active := true }) :=
  ⟨⟨rfl, (start_state_machine ⟨⟨itimerspec.zero⟩, itimerspec.zero, true⟩).1 rfl⟩,
   ⟨rfl, (start_state_machine ⟨⟨itimerspec.zero⟩, ⟨⟨0, 0⟩, ⟨2, 0⟩⟩, false⟩).2 rfl⟩⟩

/-- Counterexample to C5: on an armed timer, `set_interval 0 0` does not
signal the reconfigure-while-armed panic — the `assert!(initial_ms > 0)`
fires first, so the signalled condition is the positivity assertion. -/
theorem set_interval_armed_counterexample :
    (⟨⟨itimerspec.zero⟩, itimerspec.zero, true⟩ : Timer).set_interval 0 0
      = .error (.assertInitialMsPositive, ⟨⟨itimerspec.zero⟩, itimerspec.zero, true⟩) ∧
    CratePanic.assertInitialMsPositive ≠ CratePanic.reconfigureWhileArmed := by
  constructor
  · simp [Timer.set_interval]
  · decide

/-- C5 (amended): on an armed timer, `set_interval` with a strictly
positive `initial_ms` signals the reconfigure-while-armed panic and leaves
the timer (in particular its `current` spec) unchanged; a non-positive
`initial_ms` instead trips the positivity assertion, which takes
precedence over the armed check and also leaves the timer unchanged. -/
theorem set_interval_armed_amended (t : Timer) (initial_ms interval_ms : Int) :
    (t.active = true → 0 < initial_ms →
      t.set_interval initial_ms interval_ms = .error (.reconfigureWhileArmed, t)) ∧
    (initial_ms ≤ 0 →
      t.set_interval initial_ms interval_ms = .error (.assertInitialMsPositive, t)) := by
  constructor
  · intro ha hpos
    simp [Timer.set_interval, ha, hpos]
  · intro hle
    rw [Timer.set_interval, if_pos (by omega)]

/-- Witness for C5 (amended): an armed timer with a positive and with a
non-positive `initial_ms`. -/
theorem set_interval_armed_amended_witness :
    ((⟨⟨itimerspec.zero⟩, itimerspec.zero, true⟩ : Timer).active = true ∧ (0 : Int) < 5 ∧
      (⟨⟨itimerspec.zero⟩, itimerspec.zero, true⟩ : Timer).set_interval 5 7
        = .error (.reconfigureWhileArmed, ⟨⟨itimerspec.zero⟩, itimerspec.zero, true⟩)) ∧
    ((0 : Int) ≤ 0 ∧
      (⟨⟨itimerspec.zero⟩, itimerspec.zero, true⟩ : Timer).set_interval 0 7
        = .error (.assertInitialMsPositive, ⟨⟨itimerspec.zero⟩, itimerspec.zero, true⟩)) :=
  ⟨⟨rfl, by decide,
    (set_interval_armed_amended ⟨⟨itimerspec.zero⟩, itimerspec.zero, true⟩ 5 7).1
      rfl (by decide)⟩,
   ⟨by decide,
    (set_interval_armed_amended ⟨⟨itimerspec.zero⟩, itimerspec.zero, true⟩ 0 7).2
      (by decide)⟩⟩

/-- C6: on an idle timer with `initial_ms > 0`, `set_interval` stores
`it_value = (initial_ms / 1000, (initial_ms % 1000) * 1_000_000)` and
`it_interval = (interval_ms / 1000, (interval_ms % 1000) * 1_000_000)`
with truncating integer division and remainder (Rust `/` and `%`), and
`set_oneshot timeout_ms` is exactly `set_interval timeout_ms 0`. -/
theorem set_interval_ms_conversion (t : Timer) (initial_ms interval_ms : Int)
    (hidle : t.active = false) (hpos : 0 < initial_ms) :
    t.set_interval initial_ms interval_ms = .ok { t with current :=
      { it_value := ⟨initial_ms.tdiv 1000, initial_ms.tmod 1000 * 1000000⟩
        it_interval := ⟨interval_ms.tdiv 1000, interval_ms.tmod 1000 * 1000000⟩ } } ∧
    t.set_oneshot initial_ms = t.set_interval initial_ms 0 := by
  refine ⟨?_, rfl⟩
  rw [Timer.set_interval, if_neg (by omega), if_neg (by simp [hidle])]
  have h1 : initial_ms.tmod 1000 * 1000 * 1000 = initial_ms.tmod 1000 * 1000000 := by ring
  have h2 : interval_ms.tmod 1000 * 1000 * 1000 = interval_ms.tmod 1000 * 1000000 := by ring
  rw [h1, h2]

/-- Witness for C6: `set_interval 1500 250` on a fresh timer splits into
1 s + 500_000_000 ns initial and 0 s + 250_000_000 ns interval. -/
theorem set_interval_ms_conversion_witness :
    Timer.new.active = false ∧ (0 : Int) < 1500 ∧
    (Timer.new.set_interval 1500 250 = .ok { Timer.new with current :=
      { it_value := ⟨(1500 : Int).tdiv 1000, (1500 : Int).tmod 1000 * 1000000⟩
        it_interval := ⟨(250 : Int).tdiv 1000, (250 : Int).tmod 1000 * 1000000⟩ } } ∧
     Timer.new.set_oneshot 1500 = Timer.new.set_interval 1500 0) :=
  ⟨rfl, by decide, set_interval_ms_conversion Timer.new 1500 250 rfl (by decide)⟩

/-- C10: `set_interval` never validates the interval argument: on an idle
timer, with any positive `initial_ms` and any `interval_ms` whose Rust
remainder by 1000 is negative, the call succeeds and stores an
`it_interval` with a negative `tv_nsec`, which is outside the valid
`[0, 999_999_999]` range — the `timespec` range invariant is breakable
through the public interface. -/
theorem set_interval_no_interval_validation (t : Timer) (initial_ms interval_ms : Int)
    (hidle : t.active = false) (hpos : 0 < initial_ms)
    (hneg : interval_ms.tmod 1000 < 0) :
    t.set_interval initial_ms interval_ms = .ok { t with current :=
      { it_value := ⟨initial_ms.tdiv 1000, initial_ms.tmod 1000 * 1000 * 1000⟩
        it_interval := ⟨interval_ms.tdiv 1000, interval_ms.tmod 1000 * 1000 * 1000⟩ } } ∧
    interval_ms.tmod 1000 * 1000 * 1000 < 0 ∧
    timespec.is_valid ⟨interval_ms.tdiv 1000, interval_ms.tmod 1000 * 1000 * 1000⟩
      = false := by
  refine ⟨?_, by omega, ?_⟩
  · rw [Timer.set_interval, if_neg (by omega), if_neg (by simp [hidle])]
  · simp only [timespec.is_valid, Bool.and_eq_false_iff, decide_eq_false_iff_not, not_le]
    left
    omega

/-- Witness for C10: `set_interval 1 (-500)` on a fresh timer stores an
`it_interval` of `-500_000_000` nanoseconds. -/
theorem set_interval_no_interval_validation_witness :
    Timer.new.active = false ∧ (0 : Int) < 1 ∧ (-500 : Int).tmod 1000 < 0 ∧
    (Timer.new.set_interval 1 (-500) = .ok { Timer.new with current :=
      { it_value := ⟨(1 : Int).tdiv 1000, (1 : Int).tmod 1000 * 1000 * 1000⟩
        it_interval := ⟨(-500 : Int).tdiv 1000, (-500 : Int).tmod 1000 * 1000 * 1000⟩ } } ∧
     (-500 : Int).tmod 1000 * 1000 * 1000 < 0 ∧
     timespec.is_valid ⟨(-500 : Int).tdiv 1000, (-500 : Int).tmod 1000 * 1000 * 1000⟩
       = false) :=
  ⟨rfl, by decide, by decide,
   set_interval_no_interval_validation Timer.new 1 (-500) rfl (by decide) (by decide)⟩

/-- Counterexample to C3: calling `start` on a freshly created (never
configured) timer is a reachable step; it installs the all-zero disarmed
spec into the handle yet sets `active`, so in the reachable state that
results, the armed flag is set while the most recently installed spec is
disarmed. -/
theorem timer_armed_invariant_counterexample :
    Timer.new.start = .ok (⟨⟨itimerspec.zero⟩, itimerspec.zero, true⟩ : Timer) ∧
    Reachable (⟨⟨itimerspec.zero⟩, itimerspec.zero, true⟩ : Timer) ∧
    (⟨⟨itimerspec.zero⟩, itimerspec.zero, true⟩ : Timer).active = true ∧
    (⟨⟨itimerspec.zero⟩, itimerspec.zero, true⟩ : Timer).timerfd.installed.it_value
      = timespec.zero := by
  have hstep : Timer.new.start = .ok (⟨⟨itimerspec.zero⟩, itimerspec.zero, true⟩ : Timer) := by
    simp [Timer.start, Timer.new, TimerFD.settime, TimerFD.new]
  exact ⟨hstep, Reachable.start Reachable.new hstep, rfl, rfl⟩

/-- C3 (amended): a timer is created disarmed with the zero spec, and the
invariant "`active` is set exactly when the spec most recently installed
into the handle is non-disarmed" holds in every state reachable when
`start` is only invoked while `current` is non-disarmed (i.e. only after a
successful `set_interval` / `set_oneshot`); `configure`, such guarded
`start`s, and `stop` all preserve it, but `start` on a timer whose
`current` is still all-zero breaks it. -/
theorem timer_armed_invariant_amended (t : Timer) (h : ReachableConfigured t) :
    Timer.new.active = false ∧ Timer.new.current = itimerspec.zero ∧
    (t.active = true ↔ t.timerfd.installed.it_value ≠ timespec.zero) := by
  refine ⟨rfl, rfl, ?_⟩
  induction h with
  | new => simp [Timer.new, TimerFD.new, itimerspec.zero]
  | set_interval _ hok ih =>
    rename_i t t' i j _
    rw [Timer.set_interval] at hok
    split at hok
    · exact absurd hok (by simp)
    · split at hok
      · exact absurd hok (by simp)
      · obtain rfl : _ = t' := (Except.ok.injEq _ _).mp hok
        simpa using ih
  | set_oneshot _ hok ih =>
    rename_i t t' ms _
    rw [Timer.set_oneshot, Timer.set_interval] at hok
    split at hok
    · exact absurd hok (by simp)
    · split at hok
      · exact absurd hok (by simp)
      · obtain rfl : _ = t' := (Except.ok.injEq _ _).mp hok
        simpa using ih
  | start _ hcur hok ih =>
    rename_i t t' _
    rw [Timer.start] at hok
    split at hok
    · exact absurd hok (by simp)
    · obtain rfl : _ = t' := (Except.ok.injEq _ _).mp hok
      simpa [TimerFD.settime] using hcur
  | stop _ hok ih =>
    rename_i t t' _
    rw [Timer.stop] at hok
    split at hok
    · exact absurd hok (by simp)
    · obtain rfl : _ = t' := (Except.ok.injEq _ _).mp hok
      simp [TimerFD.settime, itimerspec.zero]

/-- Witness for C3 (amended): configure a fresh timer, start it, stop it
again; the resulting state satisfies the invariant. -/
theorem timer_armed_invariant_amended_witness :
    ReachableConfigured (⟨⟨itimerspec.zero⟩, ⟨⟨0, 0⟩, ⟨2, 0⟩⟩, false⟩ : Timer) ∧
    (Timer.new.active = false ∧ Timer.new.current = itimerspec.zero ∧
      ((⟨⟨itimerspec.zero⟩, ⟨⟨0, 0⟩, ⟨2, 0⟩⟩, false⟩ : Timer).active = true ↔
        (⟨⟨itimerspec.zero⟩, ⟨⟨0, 0⟩, ⟨2, 0⟩⟩, false⟩ : Timer).timerfd.installed.it_value
          ≠ timespec.zero)) := by
  have hreach : ReachableConfigured (⟨⟨itimerspec.zero⟩, ⟨⟨0, 0⟩, ⟨2, 0⟩⟩, false⟩ : Timer) :=
    ReachableConfigured.set_interval (t := Timer.new) (i := 2000) (j := 0)
      ReachableConfigured.new (by simp [Timer.set_interval, Timer.new]; decide)
  exact ⟨hreach, timer_armed_invariant_amended _ hreach⟩

/-- Counterexample to C9: the out-buffer handed to the kernel call is not
the all-zero disarmed spec.  A kernel that succeeds exactly when it
receives a zero-initialized buffer fails against both `gettime` and
`settime`: the buffer they pass is the `mem::uninitialized()` one. -/
theorem gettime_buffer_counterexample :
    TimerFD.gettime_raw
        (fun b => (if b = BufContents.filled itimerspec.zero then 0 else 1, b))
      = .error .gettimeFailed ∧
    TimerFD.settime_raw itimerspec.zero
        (fun _ b => (if b = BufContents.filled itimerspec.zero then 0 else 1, b))
      = .error .settimeFailed :=
  ⟨rfl, rfl⟩

/-- C9 (amended): both `gettime` and `settime` hand the kernel an
uninitialized out-buffer (`mem::uninitialized()`), not a zero-initialized
one; a nonzero kernel return code makes the call panic, so the buffer's
value is never returned to the caller on failure. -/
theorem gettime_buffer_amended (kg : BufContents → Int × BufContents)
    (ks : itimerspec → BufContents → Int × BufContents) (new_value : itimerspec) :
    (TimerFD.gettime_raw kg =
      if (kg BufContents.uninit).1 ≠ 0 then .error .gettimeFailed
      else .ok (kg BufContents.uninit).2) ∧
    (TimerFD.settime_raw new_value ks =
      if (ks new_value BufContents.uninit).1 ≠ 0 then .error .settimeFailed
      else .ok (ks new_value BufContents.uninit).2) :=
  ⟨rfl, rfl⟩

/-- C1: the dispatch entry point first invokes the callback (obtaining the
continue decision), then attempts the non-blocking 8-byte read of the
expiration counter; a short read is accepted exactly on `EAGAIN` — which,
on a fault-free descriptor, is precisely the case where the callback
already drained it — any other failure surfaces as the drain-protocol
assertion; and the returned `gboolean` is the callback's boolean. -/
theorem dispatch_drain_protocol
    (callback : DispatchState → Bool × DispatchState) (s : DispatchState)
    (cont : Bool) (s1 : DispatchState) (n errno : Int) (fd2 : FDReadState)
    (hcb : callback s = (cont, s1))
    (hread : s1.fd.read8 = (n, errno, fd2)) :
    ((dispatch_timerfd_g_source_for_realz callback s).1
        = [DispatchEvent.callbackInvoked cont, DispatchEvent.readAttempted n errno]) ∧
    (n = 8 →
      (dispatch_timerfd_g_source_for_realz callback s).2.1
        = .ret (if cont then 1 else 0)) ∧
    (n ≠ 8 → errno = EAGAIN →
      (dispatch_timerfd_g_source_for_realz callback s).2.1
        = .ret (if cont then 1 else 0)) ∧
    (n ≠ 8 → errno ≠ EAGAIN →
      (dispatch_timerfd_g_source_for_realz callback s).2.1
        = .drainProtocolViolation errno) ∧
    (s1.fd.readFault = none → s1.fd.expirations = 0 → n ≠ 8 ∧ errno = EAGAIN) ∧
    (s1.fd.readFault = none → 0 < s1.fd.expirations → n = 8) := by
  have hdis : dispatch_timerfd_g_source_for_realz callback s =
      (let events := [DispatchEvent.callbackInvoked cont, DispatchEvent.readAttempted n errno]
       if n ≠ 8 then
         if errno = EAGAIN then
           (events, .ret (if cont then 1 else 0), { s1 with fd := fd2 })
         else
           (events, .drainProtocolViolation errno, { s1 with fd := fd2 })
       else
         (events, .ret (if cont then 1 else 0), { s1 with fd := fd2 })) := by
    rw [dispatch_timerfd_g_source_for_realz, hcb]
    dsimp only
    rw [hread]
  refine ⟨?_, ?_, ?_, ?_, ?_, ?_⟩
  · rw [hdis]
    split <;> [skip; rfl] <;> split <;> rfl
  · intro h8
    rw [hdis]
    simp [h8]
  · intro h8 heagain
    rw [hdis]
    simp [h8, heagain]
  · intro h8 heagain
    rw [hdis]
    simp [h8, heagain]
  · intro hfault hdrained
    rw [FDReadState.read8, hfault] at hread
    simp only [hdrained, gt_iff_lt, lt_irrefl, if_false] at hread
    obtain ⟨rfl, rfl, rfl⟩ := Prod.mk.injEq .. ▸ hread
    constructor
    · decide
    · rfl
  · intro hfault hpending
    rw [FDReadState.read8, hfault] at hread
    rw [if_pos hpending] at hread
    exact (Prod.mk.injEq .. ▸ hread).1.symm

/-- Witness for C1: a callback that keeps the source and pre-drains
nothing, on a descriptor the callback left drained — the read reports a
would-block short read, which dispatch accepts, returning `gboolean` 1. -/
theorem dispatch_drain_protocol_witness :
    ((dispatch_timerfd_g_source_for_realz (fun s => (true, s))
        ⟨Timer.new, ⟨0, none⟩⟩).1
      = [DispatchEvent.callbackInvoked true, DispatchEvent.readAttempted (-1) EAGAIN]) ∧
    ((dispatch_timerfd_g_source_for_realz (fun s => (true, s))
        ⟨Timer.new, ⟨0, none⟩⟩).2.1 = .ret (if true then 1 else 0)) :=
  ⟨(dispatch_drain_protocol (fun s => (true, s)) ⟨Timer.new, ⟨0, none⟩⟩ true
      ⟨Timer.new, ⟨0, none⟩⟩ (-1) EAGAIN ⟨0, none⟩ rfl rfl).1,
   (dispatch_drain_protocol (fun s => (true, s)) ⟨Timer.new, ⟨0, none⟩⟩ true
      ⟨Timer.new, ⟨0, none⟩⟩ (-1) EAGAIN ⟨0, none⟩ rfl rfl).2.2.1
     (by decide) rfl⟩
